import Mathlib

/-!
Shallow embedding of `integration/e2ecortex/client.go` (the Cortex
integration-test client) and proofs about its behaviour.

Modelling conventions:
* Byte strings (`[]byte`) are `List Nat`, each entry a byte value `< 256`.
* `http.Header` is a list of `(name, value)` pairs; `Header.Set` replaces
  every entry for the key, `Header.Add` appends.  MIME canonicalization of
  keys is not modelled: every write in this client uses a fixed literal key.
* Library calls whose implementation lives outside the repository
  (protobuf marshalling, snappy compression, JSON/YAML codecs, the
  prometheus API client's `Do`) are parameters of the embedded functions:
  the client's logic is proved for every possible behaviour of those
  collaborators.
* The result of the one network round trip an operation performs is an
  explicit input (`DoResult` / `AmDoResult`): either a transport error or a
  response, exactly the two outcomes `http.Client.Do` /
  `api.Client.Do` can produce.
* A method call on a nil interface value (the disabled alertmanager
  client) is modelled as the distinguished `panic` outcome.
-/

namespace E2ECortex

/-- Byte strings (`[]byte` in Go). -/
abbrev Bytes := List Nat

/-- Go's `http.Header`: an association list from header name to value. -/
abbrev Headers := List (String × String)

/-- Go's `Header.Set(k, v)`: replaces all existing entries for key `k` with the
single entry `(k, v)`. -/
def Headers.set (h : Headers) (k v : String) : Headers :=
  (k, v) :: h.filter (fun p => !(p.1 == k))

/-- Go's `Header.Add(k, v)`: appends the entry, keeping existing ones. -/
def Headers.add (h : Headers) (k v : String) : Headers :=
  h ++ [(k, v)]

/-- Go's `Header.Get(k)`: the first value stored for key `k`, if any. -/
def Headers.get (h : Headers) (k : String) : Option String :=
  (h.find? (fun p => p.1 == k)).map Prod.snd

/-- An outbound HTTP request as this client builds it. -/
structure Request where
  method : String
  url : String
  headers : Headers
  body : Bytes
  deriving DecidableEq, Repr

/-- An HTTP response body, with the `closed` resource state made explicit
(set to `true` by `Body.Close()`). -/
structure Body where
  content : Bytes
  closed : Bool
  deriving DecidableEq, Repr

/-- An HTTP response (`*http.Response`): status code plus body stream. -/
structure Response where
  statusCode : Nat
  body : Body
  deriving DecidableEq, Repr

/-- The outcome of `http.Client.Do`: a transport-level error (connection
failure, timeout, cancellation) or a received response. -/
inductive DoResult where
  | transportError (msg : String)
  | response (res : Response)
  deriving DecidableEq, Repr

/-- The outcome of the prometheus `api.Client.Do` helper, which reads the
body for the caller: transport error, or status code plus body bytes. -/
inductive AmDoResult where
  | transportError (msg : String)
  | response (statusCode : Nat) (body : Bytes)
  deriving DecidableEq, Repr

/-! ### UTF-8 bytes and Go's `url.PathEscape` -/

/-- UTF-8 encoding of one code point, as Go strings store it. -/
def utf8Bytes (c : Char) : Bytes :=
  let n := c.toNat
  if n < 0x80 then [n]
  else if n < 0x800 then [0xC0 + n / 0x40, 0x80 + n % 0x40]
  else if n < 0x10000 then
    [0xE0 + n / 0x1000, 0x80 + n / 0x40 % 0x40, 0x80 + n % 0x40]
  else
    [0xF0 + n / 0x40000, 0x80 + n / 0x1000 % 0x40,
     0x80 + n / 0x40 % 0x40, 0x80 + n % 0x40]

/-- The byte sequence of a Go string (UTF-8). -/
def strBytes (s : String) : Bytes :=
  (s.toList.map utf8Bytes).flatten

/-- Go's `net/url.shouldEscape(c, encodePathSegment)`: alphanumerics and
`- _ . ~` are never escaped; of the RFC 3986 reserved characters
`$ & + , / : ; = ? @`, a path segment escapes exactly `/ ; , ?`;
every other byte is escaped. -/
def shouldEscapePathSegment (c : Nat) : Bool :=
  if (97 ≤ c && c ≤ 122) || (65 ≤ c && c ≤ 90) || (48 ≤ c && c ≤ 57) then
    false
  else if c == 45 || c == 95 || c == 46 || c == 126 then
    -- '-' '_' '.' '~'
    false
  else if c == 36 || c == 38 || c == 43 || c == 58 || c == 61 || c == 64 then
    -- '$' '&' '+' ':' '=' '@' stay unescaped in a path segment
    false
  else
    true

/-- Upper-case hexadecimal digit, as `net/url`'s `"0123456789ABCDEF"`. -/
def upperHexDigit (n : Nat) : Nat :=
  if n < 10 then 48 + n else 55 + n

/-- One byte of `escape` output: either the byte itself or `%XX`. -/
def escapePathByte (c : Nat) : Bytes :=
  if shouldEscapePathSegment c then
    [37, upperHexDigit (c / 16), upperHexDigit (c % 16)]
  else
    [c]

/-- Go's `url.PathEscape(s)`: escapes `s` so it can be safely placed inside a
URL path segment.  Works byte-wise over the UTF-8 encoding, exactly as the
Go implementation does; the output is pure ASCII. -/
def pathEscape (s : String) : String :=
  String.mk (((strBytes s).flatMap escapePathByte).map Char.ofNat)

/-! ### The client and its construction -/

/-- The alertmanager API client (`promapi.Client`) that `NewClient` builds
when an alertmanager address is configured: it resolves request URLs
against the base address and carries the tenant round tripper. -/
structure AlertmanagerAPIClient where
  address : String
  orgID : String
  deriving DecidableEq, Repr

/-- Go's `Client`: the Cortex integration-test client.  `alertmanagerClient` is
`none` exactly when the Go field holds a nil interface.  `timeout` is in
seconds. -/
structure Client where
  alertmanagerClient : Option AlertmanagerAPIClient
  querierAddress : String
  rulerAddress : String
  distributorAddress : String
  timeout : Nat
  orgID : String
  deriving DecidableEq, Repr

/-- Go's `NewClient`: builds the client.  The querier API client construction
(address parsing) always succeeds for the addresses the tests pass and is
not modelled; the alertmanager client is created only when
`alertmanagerAddress != ""`, otherwise the field keeps its nil zero
value. -/
def NewClient (distributorAddress querierAddress alertmanagerAddress
    rulerAddress orgID : String) : Client :=
  { distributorAddress := distributorAddress
  , querierAddress := querierAddress
  , rulerAddress := rulerAddress
  , timeout := 5
  , orgID := orgID
  , alertmanagerClient :=
      if alertmanagerAddress = "" then none
      else some { address := "http://" ++ alertmanagerAddress
                , orgID := orgID } }

/-! ### Context discipline -/

/-- The cancellation context an operation attaches to its request:
`context.Background()` bare, `context.WithTimeout(context.Background(), d)`
with `d` in seconds, or the caller-supplied `ctx` used as-is. -/
inductive ReqContext where
  | background
  | backgroundWithTimeout (seconds : Nat)
  | caller
  deriving DecidableEq, Repr

/-- Go's `Push` wraps a background context with `c.timeout`. -/
def pushContext (c : Client) : ReqContext :=
  .backgroundWithTimeout c.timeout

/-- Go's `Query` passes `context.Background()` with no deadline. -/
def queryContext (_ : Client) : ReqContext :=
  .background

/-- Go's `QueryRaw` wraps a background context with `c.timeout`. -/
def queryRawContext (c : Client) : ReqContext :=
  .backgroundWithTimeout c.timeout

/-- Go's `LabelValues` passes `context.Background()` with no deadline. -/
def labelValuesContext (_ : Client) : ReqContext :=
  .background

/-- Go's `LabelNames` passes `context.Background()` with no deadline. -/
def labelNamesContext (_ : Client) : ReqContext :=
  .background

/-- Go's `GetRuleGroups` wraps a background context with `c.timeout`. -/
def getRuleGroupsContext (c : Client) : ReqContext :=
  .backgroundWithTimeout c.timeout

/-- Go's `SetRuleGroup` wraps a background context with `c.timeout`. -/
def setRuleGroupContext (c : Client) : ReqContext :=
  .backgroundWithTimeout c.timeout

/-- Go's `DeleteRuleGroup` wraps a background context with `c.timeout`. -/
def deleteRuleGroupContext (c : Client) : ReqContext :=
  .backgroundWithTimeout c.timeout

/-- Go's `GetAlertmanagerConfig` uses the caller-supplied `ctx` unchanged. -/
def getAlertmanagerConfigContext (_ : Client) : ReqContext :=
  .caller

/-- Go's `SetAlertmanagerConfig` uses the caller-supplied `ctx` unchanged. -/
def setAlertmanagerConfigContext (_ : Client) : ReqContext :=
  .caller

/-- Go's `DeleteAlertmanagerConfig` uses the caller-supplied `ctx` unchanged. -/
def deleteAlertmanagerConfigContext (_ : Client) : ReqContext :=
  .caller

/-! ### Push -/

/-- Go's `prompb.WriteRequest`: the single message wrapping the pushed batch.
The time-series element type `TS` is the vendored `prompb.TimeSeries`,
kept abstract: its contents never influence the client's logic. -/
structure WriteRequest (TS : Type) where
  Timeseries : List TS

/-- The external serialization collaborators `Push` calls:
`proto.Marshal` (which can fail) and `snappy.Encode`. -/
structure PushCodecs (TS : Type) where
  protoMarshal : WriteRequest TS → Except String Bytes
  snappyEncode : Bytes → Bytes

/-- The HTTP request `Push` builds (lines 85-100): POST to
`/api/prom/push` on the distributor, the snappy-compressed protobuf body,
and the four headers.  Fails when `proto.Marshal` fails. -/
def pushBuildRequest {TS : Type} (codecs : PushCodecs TS) (c : Client)
    (timeseries : List TS) : Except String Request :=
  match codecs.protoMarshal { Timeseries := timeseries } with
  | .error e => .error e
  | .ok data =>
    let compressed := codecs.snappyEncode data
    .ok { method := "POST"
        , url := "http://" ++ c.distributorAddress ++ "/api/prom/push"
        , headers :=
            Headers.set
              (Headers.set
                (Headers.set
                  (Headers.add ([] : Headers) "Content-Encoding" "snappy")
                  "Content-Type" "application/x-protobuf")
                "X-Prometheus-Remote-Write-Version" "0.1.0")
              "X-Scope-OrgID" c.orgID
        , body := compressed }

/-- What `Push` returns: a marshalling error, a transport error from
`httpClient.Do`, or the received response. -/
inductive PushOutcome where
  | marshalError (msg : String)
  | transportError (msg : String)
  | ok (res : Response)
  deriving DecidableEq, Repr

/-- Go's `Push` (lines 83-113): after building the request, executes it and —
when `Do` succeeds — registers `defer res.Body.Close()` and returns the
response, so the body has been closed by the time the caller holds it.
The status code is never inspected.  `d` is the outcome of the one
`httpClient.Do` call. -/
def pushOutcome {TS : Type} (codecs : PushCodecs TS) (c : Client)
    (timeseries : List TS) (d : DoResult) : PushOutcome :=
  match pushBuildRequest codecs c timeseries with
  | .error e => .marshalError e
  | .ok _ =>
    match d with
    | .transportError m => .transportError m
    | .response res =>
        .ok { res with body := { res.body with closed := true } }

/-! ### The tenant-scoping round tripper -/

/-- Go's `addOrgIDRoundTripper`: wraps the next `http.RoundTripper`, modelled
as a function from a request to a `Do` outcome. -/
structure addOrgIDRoundTripper where
  orgID : String
  next : Request → DoResult

/-- Go's `RoundTrip` (lines 166-170): sets `X-Scope-OrgID` on the request,
then delegates to the wrapped transport, once, with the request otherwise
unchanged. -/
def addOrgIDRoundTripper.RoundTrip (r : addOrgIDRoundTripper)
    (req : Request) : DoResult :=
  r.next { req with
    headers := Headers.set req.headers "X-Scope-OrgID" r.orgID }

/-! ### Rule management -/

/-- The URL `SetRuleGroup` targets (line 253): the namespace is
path-escaped. -/
def setRuleGroupURL (c : Client) (ns : String) : String :=
  "http://" ++ c.rulerAddress ++ "/api/prom/rules/" ++ pathEscape ns

/-- The URL `DeleteRuleGroup` targets (line 277): namespace and group
name are each path-escaped. -/
def deleteRuleGroupURL (c : Client) (ns groupName : String) : String :=
  "http://" ++ c.rulerAddress ++ "/api/prom/rules/" ++ pathEscape ns
    ++ "/" ++ pathEscape groupName

/-- What a rule-group write operation returns. -/
inductive RuleOpOutcome where
  | marshalError (msg : String)
  | transportError (msg : String)
  | success
  deriving DecidableEq, Repr

/-- Go's `SetRuleGroup` (lines 245-272): marshals the group to YAML, POSTs it,
and — once `Do` returns without a transport error — returns `nil`
without looking at the response's status code.  `RG` is the vendored
`rulefmt.RuleGroup`; `yamlMarshal` the external `yaml.Marshal`. -/
def setRuleGroupOutcome {RG : Type}
    (yamlMarshal : RG → Except String Bytes)
    (rulegroup : RG) (d : DoResult) : RuleOpOutcome :=
  match yamlMarshal rulegroup with
  | .error e => .marshalError e
  | .ok _ =>
    match d with
    | .transportError m => .transportError m
    | .response _ => .success

/-- Go's `DeleteRuleGroup` (lines 275-296): issues the DELETE and — once `Do`
returns without a transport error — returns `nil` without looking at the
response's status code. -/
def deleteRuleGroupOutcome (d : DoResult) : RuleOpOutcome :=
  match d with
  | .transportError m => .transportError m
  | .response _ => .success

/-! ### Alertmanager operations -/

/-- Go's `ServerStatus` (lines 174-178): the JSON status envelope, holding
`data.configYAML`. -/
structure ServerStatus where
  configYAML : String
  deriving DecidableEq, Repr

/-- Go's `userConfig` (lines 299-302): the document `SetAlertmanagerConfig`
marshals to YAML. -/
structure userConfig where
  TemplateFiles : List (String × String)
  AlertmanagerConfig : String

/-- The external decoding collaborators of `GetAlertmanagerConfig`:
`json.Unmarshal` of the body into a `ServerStatus`, and `yaml.Unmarshal`
of the embedded document into an `alertConfig.Config` (type `Cfg`, kept
abstract — it is a vendored type).  `yamlUnmarshalConfig` returns the
filled-in config and the possible error, matching Go's in-place
unmarshal into a fresh `&Config{}`. -/
structure AmCodecs (Cfg : Type) where
  jsonUnmarshalServerStatus : Bytes → Except String ServerStatus
  yamlUnmarshalConfig : String → Cfg × Option String

/-- What `GetAlertmanagerConfig` produces.  `panic` is the nil-interface
dereference `c.alertmanagerClient.URL(...)` when no alertmanager address
was configured.  `result cfg yamlErr` mirrors `return cfg, err`: the
config pointer is returned together with `yaml.Unmarshal`'s error. -/
inductive GetAmOutcome (Cfg : Type) where
  | panic
  | transportError (msg : String)
  | notFound
  | jsonError (msg : String)
  | result (cfg : Cfg) (yamlErr : Option String)
  deriving DecidableEq, Repr

/-- Go's `GetAlertmanagerConfig` (lines 181-208): GET the status endpoint;
404 maps to `ErrNotFound`; otherwise the body is JSON-decoded into the
envelope and the embedded string YAML-decoded into the config — the
status code is not consulted beyond the 404 check. -/
def getAlertmanagerConfigOutcome {Cfg : Type} (codecs : AmCodecs Cfg)
    (c : Client) (d : AmDoResult) : GetAmOutcome Cfg :=
  match c.alertmanagerClient with
  | none => .panic
  | some _ =>
    match d with
    | .transportError m => .transportError m
    | .response statusCode body =>
      if statusCode = 404 then .notFound
      else
        match codecs.jsonUnmarshalServerStatus body with
        | .error m => .jsonError m
        | .ok ss =>
          let r := codecs.yamlUnmarshalConfig ss.configYAML
          .result r.1 r.2

/-- What an alertmanager write operation (set/delete) produces.
`statusError` is the `fmt.Errorf` carrying the numeric status code and
the response body. -/
inductive AmOpOutcome where
  | panic
  | marshalError (msg : String)
  | transportError (msg : String)
  | notFound
  | statusError (statusCode : Nat) (body : Bytes)
  | success
  deriving DecidableEq, Repr

/-- Go's `SetAlertmanagerConfig` (lines 305-336): resolves the URL on the
alertmanager client (nil dereference when disabled), YAML-marshals the
`userConfig`, POSTs it; 404 maps to `ErrNotFound`, 201 to success, and
any other status to the error carrying status and body. -/
def setAlertmanagerConfigOutcome
    (yamlMarshalUserConfig : userConfig → Except String Bytes)
    (c : Client) (amConfig : String) (templates : List (String × String))
    (d : AmDoResult) : AmOpOutcome :=
  match c.alertmanagerClient with
  | none => .panic
  | some _ =>
    match yamlMarshalUserConfig
        { AlertmanagerConfig := amConfig, TemplateFiles := templates } with
    | .error e => .marshalError e
    | .ok _ =>
      match d with
      | .transportError m => .transportError m
      | .response statusCode body =>
        if statusCode = 404 then .notFound
        else if statusCode ≠ 201 then .statusError statusCode body
        else .success

/-- Go's `DeleteAlertmanagerConfig` (lines 339-360): resolves the URL (nil
dereference when disabled) and issues the DELETE; 404 maps to
`ErrNotFound`, 200 to success, and any other status to the error
carrying status and body. -/
def deleteAlertmanagerConfigOutcome (c : Client) (d : AmDoResult) :
    AmOpOutcome :=
  match c.alertmanagerClient with
  | none => .panic
  | some _ =>
    match d with
    | .transportError m => .transportError m
    | .response statusCode body =>
      if statusCode = 404 then .notFound
      else if statusCode ≠ 200 then .statusError statusCode body
      else .success

/-! ### Helper lemmas -/

/-- Lemma: `find?` ignores a `filter` whose predicate is implied by the search
predicate. -/
theorem find_filter_eq {α : Type} (p q : α → Bool) (l : List α)
    (hpq : ∀ a, p a = true → q a = true) :
    List.find? p (List.filter q l) = List.find? p l := by
  induction l with
  | nil => rfl
  | cons a t ih =>
    cases hpa : p a with
    | true =>
      have hqa := hpq a hpa
      simp [List.filter_cons, hqa, List.find?_cons, hpa]
    | false =>
      cases hqa : q a with
      | true => simp [List.filter_cons, hqa, List.find?_cons, hpa, ih]
      | false => simp [List.filter_cons, hqa, List.find?_cons, hpa, ih]

/-- After `Set k v`, `Get k` yields `v`. -/
theorem headers_get_set_same (h : Headers) (k v : String) :
    Headers.get (Headers.set h k v) k = some v := by
  simp [Headers.get, Headers.set, List.find?_cons]

/-- After `Set k v`, every other key reads as before. -/
theorem headers_get_set_other (h : Headers) (k k' v : String)
    (hne : k' ≠ k) :
    Headers.get (Headers.set h k v) k' = Headers.get h k' := by
  unfold Headers.get Headers.set
  rw [List.find?_cons]
  have hk : (((k, v) : String × String).1 == k') = false := by
    simp only [beq_eq_false_iff_ne]
    exact fun hkk => hne hkk.symm
  simp only [hk]
  rw [find_filter_eq]
  intro a ha
  have ha' : a.1 = k' := eq_of_beq ha
  simp [ha', hne]

/-- Hexadecimal digits are `0`-`9` or `A`-`F`, never `'/'` (byte 47). -/
theorem upperHexDigit_ne_47 (n : Nat) : upperHexDigit n ≠ 47 := by
  unfold upperHexDigit
  split <;> omega

/-- No byte of the path-escaped form is a `'/'` (byte 47): escaping
produces `%`, hexadecimal digits, and bytes the escaper keeps, and `'/'`
is always escaped in a path segment. -/
theorem slash_not_mem_escaped (s : String) :
    47 ∉ (strBytes s).flatMap escapePathByte := by
  intro hmem
  rw [List.mem_flatMap] at hmem
  obtain ⟨b, _, hb⟩ := hmem
  unfold escapePathByte at hb
  by_cases hesc : shouldEscapePathSegment b = true
  · rw [if_pos hesc] at hb
    simp only [List.mem_cons, List.not_mem_nil, or_false] at hb
    rcases hb with h | h | h
    · omega
    · exact upperHexDigit_ne_47 _ h.symm
    · exact upperHexDigit_ne_47 _ h.symm
  · rw [if_neg hesc] at hb
    simp only [List.mem_singleton] at hb
    subst hb
    exact hesc (by decide)

/-- Whether a `GetAmOutcome` is a returned Go error (`err != nil`), as
opposed to a successful result or a crash of the calling goroutine. -/
def GetAmOutcome.isErrorReturn {Cfg : Type} : GetAmOutcome Cfg → Bool
  | .panic => false
  | .transportError _ => true
  | .notFound => true
  | .jsonError _ => true
  | .result _ e => e.isSome

/-- Concrete codec assignment used to evaluate theorems on closed
inputs. -/
def amCodecs0 : AmCodecs Unit :=
  { jsonUnmarshalServerStatus := fun b =>
      if b = [] then .error "unexpected end of JSON input"
      else .ok { configYAML := "templates: []" }
  , yamlUnmarshalConfig := fun _ => ((), none) }

/-- Concrete client used to evaluate theorems on closed inputs. -/
def client0 : Client :=
  NewClient "distributor-host:80" "querier-host:80" "alertmanager-host:80"
    "ruler-host:80" "user-1"

/-! ### Claim theorems -/

/-- C1: for every alertmanager set/delete call that receives a response,
`SetAlertmanagerConfig` succeeds exactly on status 201 and
`DeleteAlertmanagerConfig` exactly on status 200; a 404 maps to the
not-found outcome on either; any other status yields the error carrying
the numeric status code and the response body. -/
theorem alertmanager_write_status_discipline
    (yamlMarshal : userConfig → Except String Bytes)
    (c : Client) (am : AlertmanagerAPIClient) (amConfig : String)
    (templates : List (String × String)) (marshalled : Bytes)
    (statusCode : Nat) (body : Bytes)
    (ham : c.alertmanagerClient = some am)
    (hm : yamlMarshal { AlertmanagerConfig := amConfig
                      , TemplateFiles := templates } = .ok marshalled) :
    (setAlertmanagerConfigOutcome yamlMarshal c amConfig templates
        (.response statusCode body) = .success ↔ statusCode = 201)
    ∧ (deleteAlertmanagerConfigOutcome c (.response statusCode body)
        = .success ↔ statusCode = 200)
    ∧ (statusCode = 404 →
        setAlertmanagerConfigOutcome yamlMarshal c amConfig templates
          (.response statusCode body) = .notFound
        ∧ deleteAlertmanagerConfigOutcome c (.response statusCode body)
          = .notFound)
    ∧ (statusCode ≠ 404 → statusCode ≠ 201 →
        setAlertmanagerConfigOutcome yamlMarshal c amConfig templates
          (.response statusCode body) = .statusError statusCode body)
    ∧ (statusCode ≠ 404 → statusCode ≠ 200 →
        deleteAlertmanagerConfigOutcome c (.response statusCode body)
          = .statusError statusCode body) := by
  have hset : setAlertmanagerConfigOutcome yamlMarshal c amConfig templates
      (.response statusCode body)
      = if statusCode = 404 then .notFound
        else if statusCode ≠ 201 then .statusError statusCode body
        else .success := by
    unfold setAlertmanagerConfigOutcome
    rw [ham, hm]
  have hdel : deleteAlertmanagerConfigOutcome c (.response statusCode body)
      = if statusCode = 404 then .notFound
        else if statusCode ≠ 200 then .statusError statusCode body
        else .success := by
    unfold deleteAlertmanagerConfigOutcome
    rw [ham]
  refine ⟨?_, ?_, ?_, ?_, ?_⟩
  · rw [hset]; split_ifs with h1 h2 <;> simp_all
  · rw [hdel]; split_ifs with h1 h2 <;> simp_all
  · intro h404
    exact ⟨by rw [hset]; simp [h404], by rw [hdel]; simp [h404]⟩
  · intro h404 h201
    rw [hset]; simp [h404, h201]
  · intro h404 h200
    rw [hdel]; simp [h404, h200]

/-- C1 witness: a status-500 response with body `[98]` makes the set
operation fail with the status error, not succeed. -/
theorem alertmanager_write_status_discipline_witness :
    (setAlertmanagerConfigOutcome (fun _ => .ok [1]) client0 "route: r" []
        (.response 500 [98]) = .success ↔ (500 : Nat) = 201)
    ∧ (deleteAlertmanagerConfigOutcome client0 (.response 500 [98])
        = .success ↔ (500 : Nat) = 200)
    ∧ ((500 : Nat) = 404 →
        setAlertmanagerConfigOutcome (fun _ => .ok [1]) client0 "route: r" []
          (.response 500 [98]) = .notFound
        ∧ deleteAlertmanagerConfigOutcome client0 (.response 500 [98])
          = .notFound)
    ∧ ((500 : Nat) ≠ 404 → (500 : Nat) ≠ 201 →
        setAlertmanagerConfigOutcome (fun _ => .ok [1]) client0 "route: r" []
          (.response 500 [98]) = .statusError 500 [98])
    ∧ ((500 : Nat) ≠ 404 → (500 : Nat) ≠ 200 →
        deleteAlertmanagerConfigOutcome client0 (.response 500 [98])
          = .statusError 500 [98]) :=
  alertmanager_write_status_discipline (fun _ => .ok [1]) client0
    { address := "http://alertmanager-host:80", orgID := "user-1" }
    "route: r" [] [1] 500 [98] rfl rfl

/-- C2: `SetRuleGroup` and `DeleteRuleGroup` report success for every
completed round trip, whatever the response's status code. -/
theorem ruleGroup_write_ops_ignore_status
    {RG : Type} (yamlMarshal : RG → Except String Bytes)
    (rulegroup : RG) (marshalled : Bytes) (res : Response)
    (hm : yamlMarshal rulegroup = .ok marshalled) :
    setRuleGroupOutcome yamlMarshal rulegroup (.response res) = .success
    ∧ deleteRuleGroupOutcome (.response res) = .success := by
  unfold setRuleGroupOutcome deleteRuleGroupOutcome
  rw [hm]
  exact ⟨rfl, rfl⟩

/-- C2 witness: a status-500 response still counts as success. -/
theorem ruleGroup_write_ops_ignore_status_witness :
    @setRuleGroupOutcome Unit (fun _ => .ok [1]) ()
      (.response { statusCode := 500
                 , body := { content := [], closed := false } }) = .success
    ∧ deleteRuleGroupOutcome
      (.response { statusCode := 500
                 , body := { content := [], closed := false } }) = .success :=
  ruleGroup_write_ops_ignore_status (fun _ => .ok [1]) () [1] _ rfl

/-- C3 counterexample: `Query` (InstantQuery) passes a bare background
context, which is not the 5-second-deadline context the claim asserts. -/
theorem instant_query_no_deadline_cex :
    queryContext client0 = .background
    ∧ ReqContext.background ≠ .backgroundWithTimeout 5 :=
  ⟨rfl, by decide⟩

/-- C3 (amended): `Push`, `QueryRaw` and the three rule-management
operations attach the fixed 5-second deadline; `Query`, `LabelValues`
and `LabelNames` pass a bare background context with no deadline; the
three alertmanager operations use only the caller-supplied context. -/
theorem timeout_discipline (dAddr qAddr aAddr rAddr o : String) :
    pushContext (NewClient dAddr qAddr aAddr rAddr o)
      = .backgroundWithTimeout 5
    ∧ queryRawContext (NewClient dAddr qAddr aAddr rAddr o)
      = .backgroundWithTimeout 5
    ∧ getRuleGroupsContext (NewClient dAddr qAddr aAddr rAddr o)
      = .backgroundWithTimeout 5
    ∧ setRuleGroupContext (NewClient dAddr qAddr aAddr rAddr o)
      = .backgroundWithTimeout 5
    ∧ deleteRuleGroupContext (NewClient dAddr qAddr aAddr rAddr o)
      = .backgroundWithTimeout 5
    ∧ queryContext (NewClient dAddr qAddr aAddr rAddr o) = .background
    ∧ labelValuesContext (NewClient dAddr qAddr aAddr rAddr o) = .background
    ∧ labelNamesContext (NewClient dAddr qAddr aAddr rAddr o) = .background
    ∧ getAlertmanagerConfigContext (NewClient dAddr qAddr aAddr rAddr o)
      = .caller
    ∧ setAlertmanagerConfigContext (NewClient dAddr qAddr aAddr rAddr o)
      = .caller
    ∧ deleteAlertmanagerConfigContext (NewClient dAddr qAddr aAddr rAddr o)
      = .caller :=
  ⟨rfl, rfl, rfl, rfl, rfl, rfl, rfl, rfl, rfl, rfl, rfl⟩

/-- C4 counterexample: the response `Push` hands back has had its body
closed by the deferred `res.Body.Close()`, so the body the caller
receives is no longer readable: the `closed` flag flips from `false` to
`true`. -/
theorem push_body_closed_cex :
    @pushOutcome Unit
      { protoMarshal := fun _ => .ok [], snappyEncode := fun b => b }
      client0 []
      (.response { statusCode := 200
                 , body := { content := [1, 2], closed := false } })
      = .ok { statusCode := 200
            , body := { content := [1, 2], closed := true } } := rfl

/-- C4 (amended): on a completed round trip `Push` returns the raw
response uncategorized — status code and body content unchanged, no
status inspection — but with the body already closed; transport errors
are surfaced as such. -/
theorem push_returns_response_uncategorized
    {TS : Type} (codecs : PushCodecs TS) (c : Client) (ts : List TS)
    (data : Bytes) (res : Response)
    (hm : codecs.protoMarshal { Timeseries := ts } = .ok data) :
    pushOutcome codecs c ts (.response res)
      = .ok { statusCode := res.statusCode
            , body := { content := res.body.content, closed := true } }
    ∧ ∀ m, pushOutcome codecs c ts (.transportError m) = .transportError m := by
  unfold pushOutcome pushBuildRequest
  rw [hm]
  exact ⟨rfl, fun _ => rfl⟩

/-- C4 witness: a concrete 418 response is passed through with its
status code and body content intact (and the body closed). -/
theorem push_returns_response_uncategorized_witness :
    @pushOutcome Unit
      { protoMarshal := fun _ => .ok [9], snappyEncode := fun b => b }
      client0 []
      (.response { statusCode := 418
                 , body := { content := [5], closed := false } })
      = .ok { statusCode := 418
            , body := { content := [5], closed := true } }
    ∧ ∀ m, @pushOutcome Unit
        { protoMarshal := fun _ => .ok [9], snappyEncode := fun b => b }
        client0 [] (.transportError m) = .transportError m :=
  push_returns_response_uncategorized
    { protoMarshal := fun _ => .ok [9], snappyEncode := fun b => b }
    client0 [] [9]
    { statusCode := 418, body := { content := [5], closed := false } } rfl

/-- C5: a 404 response to `GetAlertmanagerConfig` yields the
distinguished `ErrNotFound` outcome, never a generic error. -/
theorem getAlertmanagerConfig_404_not_found
    {Cfg : Type} (codecs : AmCodecs Cfg) (c : Client)
    (am : AlertmanagerAPIClient) (body : Bytes)
    (ham : c.alertmanagerClient = some am) :
    getAlertmanagerConfigOutcome codecs c (.response 404 body)
      = .notFound := by
  unfold getAlertmanagerConfigOutcome
  rw [ham]
  simp

/-- C5 witness: the concrete client with a configured alertmanager maps
a 404 to the not-found outcome. -/
theorem getAlertmanagerConfig_404_not_found_witness :
    getAlertmanagerConfigOutcome amCodecs0 client0 (.response 404 [])
      = .notFound :=
  getAlertmanagerConfig_404_not_found amCodecs0 client0
    { address := "http://alertmanager-host:80", orgID := "user-1" } [] rfl

/-- C6: `Push` builds a POST to `/api/prom/push` on the distributor
address whose body is the snappy encoding of the protobuf serialization
of one `WriteRequest` holding the whole batch, with headers
`Content-Encoding: snappy`, `Content-Type: application/x-protobuf`,
`X-Prometheus-Remote-Write-Version: 0.1.0` and `X-Scope-OrgID` set to
the tenant. -/
theorem push_request_shape
    {TS : Type} (codecs : PushCodecs TS) (c : Client) (ts : List TS)
    (data : Bytes)
    (hm : codecs.protoMarshal { Timeseries := ts } = .ok data) :
    ∃ req, pushBuildRequest codecs c ts = .ok req
      ∧ req.method = "POST"
      ∧ req.url = "http://" ++ c.distributorAddress ++ "/api/prom/push"
      ∧ req.body = codecs.snappyEncode data
      ∧ Headers.get req.headers "Content-Encoding" = some "snappy"
      ∧ Headers.get req.headers "Content-Type"
          = some "application/x-protobuf"
      ∧ Headers.get req.headers "X-Prometheus-Remote-Write-Version"
          = some "0.1.0"
      ∧ Headers.get req.headers "X-Scope-OrgID" = some c.orgID := by
  unfold pushBuildRequest
  rw [hm]
  exact ⟨_, rfl, rfl, rfl, rfl, rfl, rfl, rfl, rfl⟩

/-- C6 witness: concrete codecs and client produce the request with the
expected method, URL, compressed body and headers. -/
theorem push_request_shape_witness :
    ∃ req, @pushBuildRequest Unit
        { protoMarshal := fun _ => .ok [7], snappyEncode := fun b => 0 :: b }
        client0 [] = .ok req
      ∧ req.method = "POST"
      ∧ req.url = "http://" ++ client0.distributorAddress ++ "/api/prom/push"
      ∧ req.body = (0 :: [7] : Bytes)
      ∧ Headers.get req.headers "Content-Encoding" = some "snappy"
      ∧ Headers.get req.headers "Content-Type"
          = some "application/x-protobuf"
      ∧ Headers.get req.headers "X-Prometheus-Remote-Write-Version"
          = some "0.1.0"
      ∧ Headers.get req.headers "X-Scope-OrgID" = some client0.orgID :=
  push_request_shape
    { protoMarshal := fun _ => .ok [7], snappyEncode := fun b => 0 :: b }
    client0 [] [7] rfl

/-- C7: the tenant-scoping transport forwards each request to the
wrapped transport exactly once, with `X-Scope-OrgID` set to the
configured tenant (overwriting any prior value) and with method, URL,
body and all other headers unchanged. -/
theorem roundTrip_injects_org_header
    (r : addOrgIDRoundTripper) (req : Request) :
    ∃ req', r.RoundTrip req = r.next req'
      ∧ Headers.get req'.headers "X-Scope-OrgID" = some r.orgID
      ∧ (∀ k, k ≠ "X-Scope-OrgID" →
          Headers.get req'.headers k = Headers.get req.headers k)
      ∧ req'.method = req.method
      ∧ req'.url = req.url
      ∧ req'.body = req.body :=
  ⟨_, rfl, headers_get_set_same _ _ _,
    fun _ hk => headers_get_set_other _ _ _ _ hk, rfl, rfl, rfl⟩

/-- C8: the rule-management request paths embed the namespace and group
name through `url.PathEscape`; the escaped form never contains a raw
`'/'` byte, and the namespace `"test/ns"` is encoded as `"test%2Fns"`. -/
theorem ruleGroup_urls_path_escaped (c : Client) (ns groupName : String) :
    setRuleGroupURL c ns
      = "http://" ++ c.rulerAddress ++ "/api/prom/rules/" ++ pathEscape ns
    ∧ deleteRuleGroupURL c ns groupName
      = "http://" ++ c.rulerAddress ++ "/api/prom/rules/" ++ pathEscape ns
        ++ "/" ++ pathEscape groupName
    ∧ 47 ∉ (strBytes ns).flatMap escapePathByte
    ∧ 47 ∉ (strBytes groupName).flatMap escapePathByte
    ∧ pathEscape "test/ns" = "test%2Fns" :=
  ⟨rfl, rfl, slash_not_mem_escaped ns, slash_not_mem_escaped groupName,
    by decide⟩

/-- C9 counterexample: with an empty alertmanager address the client is
constructed with a nil alertmanager client, and a subsequent
`GetAlertmanagerConfig` dereferences that nil interface — the call
crashes instead of returning an error. -/
theorem alertmanager_disabled_no_error_cex :
    (NewClient "distributor-host:80" "querier-host:80" ""
        "ruler-host:80" "user-1").alertmanagerClient = none
    ∧ getAlertmanagerConfigOutcome amCodecs0
        (NewClient "distributor-host:80" "querier-host:80" ""
          "ruler-host:80" "user-1")
        (.response 200 []) = .panic
    ∧ @GetAmOutcome.isErrorReturn Unit GetAmOutcome.panic = false :=
  ⟨rfl, rfl, rfl⟩

/-- C9 (amended): an empty alertmanager address leaves construction
successful with the alertmanager client disabled (nil), and every
subsequent alertmanager operation dereferences the nil interface and
panics rather than returning an error. -/
theorem alertmanager_disabled_operations_panic
    {Cfg : Type} (codecs : AmCodecs Cfg)
    (yamlMarshal : userConfig → Except String Bytes)
    (dAddr qAddr rAddr o amConfig : String)
    (templates : List (String × String)) (d : AmDoResult) :
    (NewClient dAddr qAddr "" rAddr o).alertmanagerClient = none
    ∧ getAlertmanagerConfigOutcome codecs
        (NewClient dAddr qAddr "" rAddr o) d = .panic
    ∧ setAlertmanagerConfigOutcome yamlMarshal
        (NewClient dAddr qAddr "" rAddr o) amConfig templates d = .panic
    ∧ deleteAlertmanagerConfigOutcome
        (NewClient dAddr qAddr "" rAddr o) d = .panic :=
  ⟨rfl, rfl, rfl, rfl⟩

/-- C10: apart from the 404 check, `GetAlertmanagerConfig` never
inspects the status code: any two non-404 responses with the same body
decode identically, a JSON decode failure surfaces as the decode error,
and a decodable body yields the YAML-parsed configuration — there is no
unexpected-status error. -/
theorem getAlertmanagerConfig_ignores_non404_status
    {Cfg : Type} (codecs : AmCodecs Cfg) (c : Client)
    (am : AlertmanagerAPIClient) (s1 s2 : Nat) (body : Bytes)
    (ham : c.alertmanagerClient = some am)
    (h1 : s1 ≠ 404) (h2 : s2 ≠ 404) :
    getAlertmanagerConfigOutcome codecs c (.response s1 body)
      = getAlertmanagerConfigOutcome codecs c (.response s2 body)
    ∧ (∀ m, codecs.jsonUnmarshalServerStatus body = .error m →
        getAlertmanagerConfigOutcome codecs c (.response s1 body)
          = .jsonError m)
    ∧ (∀ ss, codecs.jsonUnmarshalServerStatus body = .ok ss →
        getAlertmanagerConfigOutcome codecs c (.response s1 body)
          = .result (codecs.yamlUnmarshalConfig ss.configYAML).1
              (codecs.yamlUnmarshalConfig ss.configYAML).2) := by
  have hget : ∀ s : Nat, s ≠ 404 →
      getAlertmanagerConfigOutcome codecs c (.response s body)
        = match codecs.jsonUnmarshalServerStatus body with
          | .error m => .jsonError m
          | .ok ss => .result (codecs.yamlUnmarshalConfig ss.configYAML).1
              (codecs.yamlUnmarshalConfig ss.configYAML).2 := by
    intro s hs
    unfold getAlertmanagerConfigOutcome
    rw [ham]
    exact if_neg hs
  refine ⟨by rw [hget s1 h1, hget s2 h2], fun m hm => ?_, fun ss hss => ?_⟩
  · rw [hget s1 h1, hm]
  · rw [hget s1 h1, hss]

/-- C10 witness: a 500 and a 503 response with the same empty body both
surface the JSON decode error, and a parseable body on a 500 yields the
decoded configuration. -/
theorem getAlertmanagerConfig_ignores_non404_status_witness :
    getAlertmanagerConfigOutcome amCodecs0 client0 (.response 500 [])
      = getAlertmanagerConfigOutcome amCodecs0 client0 (.response 503 [])
    ∧ (∀ m, amCodecs0.jsonUnmarshalServerStatus [] = .error m →
        getAlertmanagerConfigOutcome amCodecs0 client0 (.response 500 [])
          = .jsonError m)
    ∧ (∀ ss, amCodecs0.jsonUnmarshalServerStatus [] = .ok ss →
        getAlertmanagerConfigOutcome amCodecs0 client0 (.response 500 [])
          = .result (amCodecs0.yamlUnmarshalConfig ss.configYAML).1
              (amCodecs0.yamlUnmarshalConfig ss.configYAML).2) :=
  getAlertmanagerConfig_ignores_non404_status amCodecs0 client0
    { address := "http://alertmanager-host:80", orgID := "user-1" }
    500 503 [] rfl (by decide) (by decide)

end E2ECortex
